import Mathlib

/-!
Verification of the connection/framing core of the TCP-Message-Board
repository (src/server.py, src/client.py).

Bytes are modelled as `Nat` (each in 0..255 where it matters) and byte
strings as `List Nat`.  Python `dict`s decoded from JSON are modelled as
association lists over a small JSON value type.  Stateful code is embedded
as explicit state passing; the points where the Python code can raise an
exception are embedded as `Except String` results carrying the exception
name, and points where a thread can block forever are embedded as `Option`
results (`none` = the call never returns).
-/

/-- JSON values as produced by Python `json.loads` / consumed by
`json.dumps`: strings, booleans, numbers (modelled as `Int`), arrays,
objects and `null`. -/
inductive Json where
  | str (s : String)
  | bool (b : Bool)
  | num (n : Int)
  | arr (xs : List Json)
  | obj (fields : List (String × Json))
  | null
deriving Repr

/-- Python `d[key]` / `key in d` on a decoded JSON object, modelled as
association-list lookup (`none` = key absent, i.e. `key not in d`). -/
def lookupJ : List (String × Json) → String → Option Json
  | [], _ => none
  | (k, v) :: rest, key => if k = key then some v else lookupJ rest key

/-- Python `==` between an arbitrary decoded JSON value and a `str`
literal: equal only when the value is a string with the same characters
(Python cross-type `==` with a `str` is `False`). -/
def Json.eqStr : Json → String → Bool
  | Json.str s, t => s = t
  | _, _ => false

/-! ## Frame Codec

`n.to_bytes(8, "big")` (client.py:246, server.py:451, server.py:509) and
`int.from_bytes(bs, "big")` (client.py:249, server.py:488). -/

/-- The 8-byte big-endian encoding `n.to_bytes(8, "big")`; byte `i`
(big-endian, from the left) is `(n >> (8 * (7 - i))) & 0xFF`. -/
def encode_length (n : Nat) : List Nat :=
  [n / 256 ^ 7 % 256, n / 256 ^ 6 % 256, n / 256 ^ 5 % 256, n / 256 ^ 4 % 256,
   n / 256 ^ 3 % 256, n / 256 ^ 2 % 256, n / 256 % 256, n % 256]

/-- Big-endian decoding `int.from_bytes(bs, "big")`. -/
def decode_length (bs : List Nat) : Nat :=
  bs.foldl (fun acc b => acc * 256 + b) 0

/-! ## Stream Gate (`BufferedReader`, server.py:387-454)

`BufferedReader` state: `buffer` (the byte buffer), `lock_until` (the
target length of the outstanding blocking read), `waiting` (whether
`read_lock` is held by a blocked consumer, i.e. `read_lock.locked()`), and
`last_notified` (the timestamp of the last acknowledgment, `None` when no
read is blocked).  Timestamps and the notify period are modelled as `Nat`. -/

structure GateState where
  buffer : List Nat
  lock_until : Nat
  waiting : Bool
  last_notified : Option Nat
deriving Repr

/-- One producer step, `BufferedReader.update` (server.py:433-454), run by
the event loop when the connection socket is readable.

* `recvR` is the outcome of `self.socket.recv(self.read_size)`
  (server.py:442): either a chunk of bytes or a raised exception, which
  `update` does not catch.
* The chunk is appended to the buffer (server.py:443).
* If a consumer is blocked (`self.read_lock.locked()`, server.py:445) and
  `now - self.last_notified > self.notify_period` (server.py:447), the
  acknowledgment sentinel and the current buffered length are sent
  (server.py:450-451); `sendOk = false` means that send raises, and
  `update` does not catch that either.  A blocked consumer always has
  `last_notified` set; if it were `None`, `now - None` raises `TypeError`.
* If `self.lock_until <= len(self.buffer)` the consumer is released
  (server.py:453-454).

The result is the new state together with the acknowledgment byte count
sent at this step, if any. -/
def BufferedReader.update (s : GateState) (recvR : Except String (List Nat))
    (now np : Nat) (sendOk : Bool) : Except String (GateState × Option Nat) :=
  match recvR with
  | .error e => .error e
  | .ok chunk =>
    let buf := s.buffer ++ chunk
    if s.waiting then
      match s.last_notified with
      | none => .error "TypeError"
      | some t =>
        if np < now - t then
          if sendOk then
            .ok ({ s with
                    buffer := buf
                    last_notified := some now
                    waiting := decide (buf.length < s.lock_until) },
                 some buf.length)
          else .error "SendError"
        else
          .ok ({ s with
                  buffer := buf
                  waiting := decide (buf.length < s.lock_until) }, none)
    else
      .ok ({ s with buffer := buf }, none)

/-- The consumption step of `BufferedReader.read_bytes` (server.py:428-429):
once unblocked, the consumer takes the first `n` buffered bytes and leaves
the surplus buffered. -/
def BufferedReader.read_bytes (buffer : List Nat) (n : Nat) :
    List Nat × List Nat :=
  (buffer.take n, buffer.drop n)

/-- The blocking behaviour of `BufferedReader.read_bytes` (server.py:414-431)
against a producer delivering `chunks` one `update` call at a time:

* if `self.lock_until > len(self.buffer)` fails at entry (server.py:421),
  the call returns immediately with `buffer[:n]` / `buffer[n:]`;
* otherwise the consumer blocks on `read_lock` and each `update` appends
  its chunk and releases the consumer exactly when
  `self.lock_until <= len(self.buffer)` (server.py:453);
* `none` means every delivered chunk was appended and the release
  condition never held: the consumer is still blocked in
  `self.read_lock.acquire` — `read_bytes` installs no timeout of any kind,
  so the call never returns. -/
def read_bytes_run (chunks : List (List Nat)) (buffer : List Nat) (n : Nat) :
    Option (List Nat × List Nat) :=
  if n ≤ buffer.length then some (BufferedReader.read_bytes buffer n)
  else
    match chunks with
    | [] => none
    | c :: cs => read_bytes_run cs (buffer ++ c) n

/-! ## The Readiness Multiplexer loop (`Server.start`, server.py:170-175) -/

/-- Adapter giving the producer callback as the selector loop sees it:
`callback(*data)` discards `update`'s value but propagates any exception. -/
def updateCallback (s : GateState) (recvR : Except String (List Nat))
    (now np : Nat) (sendOk : Bool) : Except String Unit :=
  match BufferedReader.update s recvR now np sendOk with
  | .error e => .error e
  | .ok _ => .ok ()

/-- One pass of the dispatch loop in `Server.start` (server.py:172-175):
`for key, mask in self.selector.select(...): callback(*data)`.  There is
no `try`/`except` around the callback, so the first callback that raises
aborts the pass, the `while True`, and `Server.start` itself. -/
def Server.startLoopIter : List (Except String Unit) → Except String Unit
  | [] => .ok ()
  | .ok _ :: rest => Server.startLoopIter rest
  | .error e :: _ => .error e

/-! ## Repeated producer steps and acknowledgment counts -/

/-- A sequence of `BufferedReader.update` calls, each with its received
chunk and its `datetime.datetime.now().timestamp()` value, with every
acknowledgment send succeeding; collects the acknowledgment byte counts
sent, in order. -/
def runUpdates (s : GateState) (np : Nat) :
    List (List Nat × Nat) → Except String (GateState × List Nat)
  | [] => .ok (s, [])
  | (c, t) :: rest =>
    match BufferedReader.update s (.ok c) t np true with
    | .error e => .error e
    | .ok (s1, ack) =>
      match runUpdates s1 np rest with
      | .error e => .error e
      | .ok (s2, acks) => .ok (s2, ack.toList ++ acks)

/-- The buffered length after each chunk in turn, starting from a buffer
of length `len0`: the byte count `update` reports in the acknowledgment it
sends at that step (server.py:451 sends `len(self.buffer)` after the
append). -/
def ackCounts (len0 : Nat) : List (List Nat) → List Nat
  | [] => []
  | c :: cs => (len0 + c.length) :: ackCounts (len0 + c.length) cs

/-- "The producer appends more slowly than the notify interval": each step
delivers a nonempty chunk, and each step's timestamp exceeds the previous
acknowledgment time (initially `prev`) by more than the notify period. -/
def slowSteps (np : Nat) : Nat → List (List Nat × Nat) → Prop
  | _, [] => True
  | prev, (c, t) :: rest => c ≠ [] ∧ prev + np < t ∧ slowSteps np t rest

/-! ## Request processing (`Server.process_request`, server.py:202-297)

Board/message persistence is an external collaborator (plain file I/O);
its outcomes enter the model as oracle functions on the server state. -/

/-- Outcome of `Server.load_messages` (server.py:299-327) as observed by
`process_request`: a message list, a raised `FileNotFoundError` (the only
exception `process_request` catches, server.py:249), or some other raised
exception (`ServerException` on a malformed message filename, or another
`OSError`), which `process_request` does not catch. -/
inductive LoadResult where
  | ok (msgs : List Json)
  | fileNotFound
  | raised (e : String)

/-- Outcome of `Server.write_message_to_file` (server.py:329-354) as
observed by `process_request`: success, or a raised `ServerException` /
`OSError`, both caught (server.py:287) with `str(exc)` as the message. -/
inductive WriteResult where
  | ok
  | caught (msg : String)

/-- The server state `process_request` reads: the protocol version
(`Server.version = "1.0.0"`, server.py:100), the board names loaded at
startup (`self.boards`), and the persistence collaborators as oracles. -/
structure ServerState where
  boards : List String
  loadMessages : String → LoadResult
  writeMessage : String → String → String → WriteResult

/-- `Server.version` (server.py:100). -/
def serverVersion : String := "1.0.0"

/-- Python `s.replace(" ", "_")` on a string (server.py:245, 279, 281). -/
def replaceSpaces (s : String) : String :=
  s.map (fun c => if c = ' ' then '_' else c)

/-- `", ".join(map(lambda x: f"{x[0]}: {x[1]}", missing_arguments))` with
every missing argument of type `string` (server.py:271). -/
def missingArgsString (missing : List String) : String :=
  String.intercalate ", " (missing.map (fun a => a ++ ": string"))

/-- `Server.process_request` (server.py:202-297).  Returns
`.ok (method_tag, status, response_object)` when the Python method returns
its triple, and `.error name` when it raises an uncaught exception:
`load_messages` raising something other than `FileNotFoundError`, or an
`AttributeError`/`TypeError` from calling `.replace`/`file.write` on a
non-string request field. -/
def Server.process_request (srv : ServerState)
    (body : List (String × Json)) :
    Except String (String × String × List (String × Json)) :=
  match lookupJ body "version" with
  | none =>
    .ok ("?", "ERROR",
      [("success", Json.bool false),
       ("boards", Json.str "No protocol version specified")])
  | some v =>
    if ¬ Json.eqStr v serverVersion then
      .ok ("?", "ERROR",
        [("success", Json.bool false),
         ("boards", Json.str
           ("Incompatible protocol version, server uses " ++ serverVersion))])
    else
      match lookupJ body "method" with
      | none =>
        .ok ("?", "ERROR",
          [("success", Json.bool false),
           ("boards", Json.str "Invalid Request, no method specified")])
      | some m =>
        if Json.eqStr m "GET_BOARDS" then
          .ok ("GET_BOARDS", "OK",
            [("success", Json.bool true),
             ("boards", Json.arr (srv.boards.map Json.str))])
        else if Json.eqStr m "GET_MESSAGES" then
          match lookupJ body "board" with
          | none =>
            .ok ("GET_MESSAGES", "ERROR",
              [("success", Json.bool false),
               ("error", Json.str "Argument missing, board: string")])
          | some (Json.str b) =>
            match srv.loadMessages (replaceSpaces b) with
            | LoadResult.ok msgs =>
              .ok ("GET_MESSAGES", "OK",
                [("success", Json.bool true),
                 ("messages", Json.arr msgs)])
            | LoadResult.fileNotFound =>
              .ok ("GET_MESSAGES", "ERROR",
                [("success", Json.bool false),
                 ("error", Json.str
                   ("Board '" ++ replaceSpaces b ++ "' doesn't exist"))])
            | LoadResult.raised e => .error e
          | some _ => .error "AttributeError"
        else if Json.eqStr m "POST_MESSAGE" then
          let missing :=
            (if (lookupJ body "board").isNone then ["board"] else []) ++
            (if (lookupJ body "title").isNone then ["title"] else []) ++
            (if (lookupJ body "content").isNone then ["content"] else [])
          if missing ≠ [] then
            .ok ("POST_MESSAGE", "ERROR",
              [("success", Json.bool false),
               ("error", Json.str
                 ("Argument(s) missing: " ++ missingArgsString missing))])
          else
            match lookupJ body "board", lookupJ body "title",
                  lookupJ body "content" with
            | some (Json.str b), some (Json.str ti), some (Json.str co) =>
              match srv.writeMessage (replaceSpaces b) (replaceSpaces ti) co with
              | WriteResult.ok =>
                .ok ("POST_MESSAGE", "OK", [("success", Json.bool true)])
              | WriteResult.caught msg =>
                .ok ("POST_MESSAGE", "ERROR",
                  [("success", Json.bool false),
                   ("error", Json.str ("Writing message failed, " ++ msg))])
            | _, _, _ => .error "AttributeError"
        else
          .ok ("?", "ERROR",
            [("success", Json.bool false),
             ("boards", Json.str "Invalid Request, invalid method specified")])

/-! ## Connection Worker (`ClientConnection.run`, server.py:481-512) -/

/-- The externally visible actions `ClientConnection.run` performs:
the log line (server.py:501-504, with the method tag and status it
writes), the response frame (the two sends of length prefix and encoded
body, server.py:509-510), and `Server.unregister` (server.py:512), which
removes the socket from the selector and closes it (server.py:194-200). -/
inductive RunAction where
  | logLine (method status : String)
  | sendResponse (resp : List (String × Json))
  | unregister
deriving Repr

/-- How a protocol run's read/decode phase ends: a read raised
`socket.timeout`, `json.loads` raised `JSONDecodeError` (both caught at
server.py:496), or the request decoded to the given JSON object. -/
inductive RunEvent where
  | timeout
  | decodeError
  | ok (body : List (String × Json))

/-- `ClientConnection.run` (server.py:481-512) as the list of actions it
performs, paired with the name of an uncaught exception if one escapes the
thread (in which case no further action is performed):

* timeout / decode error: `request_method, status, response = "?", "ERROR",
  None` (server.py:497), one log line, no send, unregister;
* a decoded request: `process_request` runs first (server.py:492); then
  `request_method = request_body["method"]` (server.py:494) raises an
  uncaught `KeyError` if the key is absent, and `.ljust(12)` on a
  non-string value raises an uncaught `AttributeError`; otherwise the log
  line is written, the response (never `None` on this path) is sent
  (`sendOk = false` models a raised `socket.send`), and `unregister` runs. -/
def ClientConnection.run (srv : ServerState) (ev : RunEvent)
    (sendOk : Bool) : List RunAction × Option String :=
  match ev with
  | RunEvent.timeout =>
    ([RunAction.logLine "?" "ERROR", RunAction.unregister], none)
  | RunEvent.decodeError =>
    ([RunAction.logLine "?" "ERROR", RunAction.unregister], none)
  | RunEvent.ok body =>
    match Server.process_request srv body with
    | .error e => ([], some e)
    | .ok (_, status, resp) =>
      match lookupJ body "method" with
      | none => ([], some "KeyError")
      | some (Json.str rm) =>
        if sendOk then
          ([RunAction.logLine rm status, RunAction.sendResponse resp,
            RunAction.unregister], none)
        else
          ([RunAction.logLine rm status], some "SendError")
      | some _ => ([], some "AttributeError")

/-! ## Client-side `read_bytes` (client.py:25-69)

```
received = bytes(); buffer = bytes()
while len(received) != n and buffer is not None:
    buffer = client_socket.recv(min(buffer_size, n)); received += buffer
```

`recvs k` is the result of the `k`-th `recv` call; Python `recv` returns a
bytes object — `b''` at end-of-stream — and never `None`. -/

/-- `received` after `k` iterations of the loop body. -/
def receivedAfter (recvs : Nat → List Nat) : Nat → List Nat
  | 0 => []
  | k + 1 => receivedAfter recvs k ++ recvs k

/-- The loop guard at client.py:54: `len(received) != n and buffer is not
None`.  `lastBuffer` is the last `recv` result, wrapped in `some` exactly
because `recv` always returns a bytes object, so the second conjunct can
never be false. -/
def read_bytes_guard (received : List Nat) (n : Nat)
    (lastBuffer : List Nat) : Bool :=
  decide (received.length ≠ n) && !(some lastBuffer).isNone

/-- A concrete server state for witnesses: two boards, a board directory
whose reads succeed with no messages and whose writes succeed. -/
def srv0 : ServerState :=
  ServerState.mk ["general", "random"] (fun _ => LoadResult.ok [])
    (fun _ _ _ => WriteResult.ok)

/-! ## Theorems -/

/-- Helper: `receivedAfter` over an end-of-stream socket (every `recv`
returns `b''`) never grows. -/
theorem receivedAfter_eof (k : Nat) :
    receivedAfter (fun _ => []) k = [] := by
  induction k with
  | zero => rfl
  | succ k ih => simp [receivedAfter, ih]

/-- C7: for every `n < 2^64`, decoding the 8-byte big-endian encoding of
`n` yields `n` back, and the encoding of `0` is exactly the 8-zero-byte
acknowledgment sentinel (server.py:450), reserved for acknowledgments and
never used to frame a real payload. -/
theorem decode_encode_roundtrip (n : Nat) (h : n < 2 ^ 64) :
    decode_length (encode_length n) = n
      ∧ encode_length 0 = List.replicate 8 0 := by
  refine ⟨?_, rfl⟩
  simp only [encode_length, decode_length, List.foldl_cons, List.foldl_nil]
  norm_num
  omega

/-- C7 witness. -/
theorem decode_encode_roundtrip_witness :
    decode_length (encode_length 1024) = 1024
      ∧ encode_length 0 = List.replicate 8 0 :=
  decode_encode_roundtrip 1024 (by norm_num)

/-- C10: `BufferedReader.read_bytes(0)` never blocks: for any buffer
contents and any producer behaviour (including no data ever arriving), it
returns the empty byte string immediately and leaves the buffer unchanged
(`lock_until = 0` can never exceed the buffer length, server.py:421). -/
theorem read_zero_returns_immediately (chunks : List (List Nat))
    (buffer : List Nat) :
    read_bytes_run chunks buffer 0 = some ([], buffer) := by
  cases chunks <;>
    simp [read_bytes_run, BufferedReader.read_bytes]

/-- C2 (against the claim): a blocking `read_bytes(n)` whose producer
never delivers `n` bytes in total never returns at all.  The wait is
`read_lock.acquire()` with no timeout argument (server.py:422, 425) and no
timeout is configured anywhere on the path, so no `ConnectionTimeout` (or
any other) error is ever produced: the result type of the blocking run has
no error outcome to reach, and the run yields `none` (still blocked) on
every insufficient delivery. -/
theorem read_bytes_blocks_forever (chunks : List (List Nat))
    (buffer : List Nat) (n : Nat)
    (h : buffer.length + chunks.flatten.length < n) :
    read_bytes_run chunks buffer n = none := by
  induction chunks generalizing buffer with
  | nil =>
    rw [read_bytes_run, if_neg]
    simp at h
    omega
  | cons c cs ih =>
    rw [read_bytes_run, if_neg]
    · exact ih (buffer ++ c) (by simp at h ⊢; omega)
    · simp at h
      omega

/-- C2 witness: a read of 8 bytes over a producer that only ever delivers
3 bytes never returns. -/
theorem read_bytes_blocks_forever_witness :
    read_bytes_run [[1], [2, 3]] [] 8 = none :=
  read_bytes_blocks_forever [[1], [2, 3]] [] 8 (by simp)

/-- C1: whenever the bytes delivered by the producer's `update` steps,
together with what was already buffered, hold at least `n` bytes, a
blocking `read_bytes(n)` returns exactly the first `n` bytes of the
undelivered stream and leaves the surplus buffered: the returned bytes and
the bytes still pending (`rest` in the buffer plus the chunks not yet
consumed) reassemble the stream exactly, so no byte is lost, duplicated,
or returned early, and successive reads partition the received stream.  In
particular a single read of `len(S)` over any chunking of `S` returns
exactly `S` (instantiate `buffer := []`, `n := chunks.flatten.length`). -/
theorem read_bytes_returns_stream (chunks : List (List Nat))
    (buffer : List Nat) (n : Nat)
    (h : n ≤ (buffer ++ chunks.flatten).length) :
    ∃ k rest,
      read_bytes_run chunks buffer n
          = some ((buffer ++ chunks.flatten).take n, rest)
        ∧ rest ++ (chunks.drop k).flatten = (buffer ++ chunks.flatten).drop n := by
  induction chunks generalizing buffer with
  | nil =>
    simp only [List.flatten_nil, List.append_nil] at h ⊢
    refine ⟨0, buffer.drop n, ?_, by simp⟩
    rw [read_bytes_run, if_pos h]
    rfl
  | cons c cs ih =>
    by_cases hb : n ≤ buffer.length
    · refine ⟨0, buffer.drop n, ?_, ?_⟩
      · rw [read_bytes_run, if_pos hb, List.take_append_of_le_length hb]
        rfl
      · simp [List.drop_append_of_le_length hb]
    · obtain ⟨k, rest, heq, hrest⟩ := ih (buffer ++ c)
        (by simpa [List.append_assoc] using h)
      refine ⟨k + 1, rest, ?_, ?_⟩
      · rw [read_bytes_run, if_neg hb, heq]
        simp [List.append_assoc]
      · simpa [List.append_assoc] using hrest

/-- C1 witness: the stream `S = [10, 20, 30]` delivered as three chunks
and read back with one `read(3)` is returned whole, with nothing left
buffered or pending. -/
theorem read_bytes_returns_stream_witness :
    ∃ k rest,
      read_bytes_run [[10], [20, 30], []] [] 3
          = some (([] ++ [[10], [20, 30], []].flatten).take 3, rest)
        ∧ rest ++ ([[10], [20, 30], []].drop k).flatten
            = ([] ++ [[10], [20, 30], []].flatten).drop 3 :=
  read_bytes_returns_stream [[10], [20, 30], []] [] 3 (by simp)

/-- C9 (against the claim): when the peer closes the connection cleanly
after delivering fewer than the requested `n` bytes, the client's
`read_bytes` loop (client.py:54-56) never terminates.  Every subsequent
`recv` returns `b''` immediately (so `socket.settimeout` never fires), and
the guard `len(received) != n and buffer is not None` stays true after
every iteration — `recv` returns a bytes object, never `None`, so the
second conjunct is constantly true — leaving the client in a busy loop
with no error ever raised. -/
theorem client_read_bytes_spins_on_eof (n : Nat) (hn : 0 < n) (k : Nat) :
    receivedAfter (fun _ => []) k = []
      ∧ read_bytes_guard (receivedAfter (fun _ => []) k) n [] = true := by
  refine ⟨receivedAfter_eof k, ?_⟩
  rw [receivedAfter_eof k]
  simp [read_bytes_guard]
  omega

/-- C9 witness: reading the 8-byte length prefix from a peer that closed
without sending anything leaves the loop guard true after 1000 iterations
(and, by the theorem, after every number of iterations). -/
theorem client_read_bytes_spins_on_eof_witness :
    receivedAfter (fun _ => []) 1000 = []
      ∧ read_bytes_guard (receivedAfter (fun _ => []) 1000) 8 [] = true :=
  client_read_bytes_spins_on_eof 8 (by norm_num) 1000

/-- C3 counterexample: with a consumer blocked (`read_lock` held, last
acknowledgment at time 0), a chunk arriving at time 10 with notify period
1, a failed acknowledgment `send` is not swallowed: `update` raises it
(server.py:450 has no `try`), and the dispatch loop of `Server.start`
(server.py:172-175), having no handler, aborts with that error instead of
continuing. -/
theorem ack_send_failure_not_swallowed :
    BufferedReader.update (GateState.mk [] 100 true (some 0))
        (.ok [7]) 10 1 false = .error "SendError"
      ∧ Server.startLoopIter
          [updateCallback (GateState.mk [] 100 true (some 0))
            (.ok [7]) 10 1 false]
        = .error "SendError" :=
  ⟨rfl, rfl⟩

/-- C3 as amended: an error in the producer-side append step is raised
into the Readiness Multiplexer's loop, not swallowed: whenever a consumer
is blocked and the notify interval has elapsed, a failed acknowledgment
write makes `BufferedReader.update` raise, and the `Server.start` dispatch
loop, having no exception handling, terminates with that error. -/
theorem ack_send_failure_escapes_loop (s : GateState) (c : List Nat)
    (now t np : Nat) (hw : s.waiting = true)
    (hln : s.last_notified = some t) (hgap : t + np < now) :
    BufferedReader.update s (.ok c) now np false = .error "SendError"
      ∧ Server.startLoopIter [updateCallback s (.ok c) now np false]
          = .error "SendError" := by
  have hcond : np < now - t := by omega
  have hupd : BufferedReader.update s (.ok c) now np false
      = .error "SendError" := by
    simp [BufferedReader.update, hw, hln, hcond]
  exact ⟨hupd, by simp [Server.startLoopIter, updateCallback, hupd]⟩

/-- C3 witness for the amended theorem. -/
theorem ack_send_failure_escapes_loop_witness :
    BufferedReader.update (GateState.mk [] 64 true (some 5))
        (.ok [1, 2]) 20 3 false = .error "SendError"
      ∧ Server.startLoopIter
          [updateCallback (GateState.mk [] 64 true (some 5))
            (.ok [1, 2]) 20 3 false]
        = .error "SendError" :=
  ack_send_failure_escapes_loop (GateState.mk [] 64 true (some 5))
    [1, 2] 20 5 3 rfl rfl (by norm_num)

/-- Helper: under slow nonempty appends with a consumer blocked and a
target the deliveries never reach, `runUpdates` succeeds, sends one
acknowledgment per step carrying the buffered length at that moment, and
ends with everything delivered still buffered. -/
theorem runUpdates_slow (steps : List (List Nat × Nat)) (s : GateState)
    (np t0 : Nat) (hw : s.waiting = true) (hln : s.last_notified = some t0)
    (hslow : slowSteps np t0 steps)
    (hlock : s.buffer.length + (steps.map Prod.fst).flatten.length
      < s.lock_until) :
    ∃ s2, runUpdates s np steps
        = .ok (s2, ackCounts s.buffer.length (steps.map Prod.fst))
      ∧ s2.buffer.length
          = s.buffer.length + (steps.map Prod.fst).flatten.length := by
  induction steps generalizing s t0 with
  | nil => exact ⟨s, rfl, by simp⟩
  | cons st rest ih =>
    obtain ⟨c, t⟩ := st
    obtain ⟨hc, hgap, hrest⟩ := hslow
    have hcond : np < t - t0 := by omega
    simp only [List.map_cons, List.flatten_cons, List.length_append] at hlock
    have hwlt : s.buffer.length + c.length < s.lock_until := by omega
    have hupd : BufferedReader.update s (.ok c) t np true
        = .ok ({ s with
                  buffer := s.buffer ++ c
                  last_notified := some t
                  waiting := true },
               some (s.buffer ++ c).length) := by
      simp [BufferedReader.update, hw, hln, hcond, hwlt]
    obtain ⟨s2, hrun, hlen⟩ := ih
      { s with
        buffer := s.buffer ++ c
        last_notified := some t
        waiting := true } t rfl rfl hrest
      (by simp only [List.length_append]; omega)
    refine ⟨s2, ?_, ?_⟩
    · simp only [runUpdates, hupd, hrun]
      simp [ackCounts, List.length_append]
    · simp only [List.length_append] at hlen
      simp only [List.map_cons, List.flatten_cons, List.length_append]
      omega

/-- Helper: acknowledgment counts over nonempty chunks are strictly
increasing. -/
theorem ackCounts_chain (chunks : List (List Nat)) (len0 : Nat)
    (h : ∀ c ∈ chunks, c ≠ []) :
    List.Chain' (· < ·) (ackCounts len0 chunks) := by
  induction chunks generalizing len0 with
  | nil => simp [ackCounts]
  | cons c cs ih =>
    rw [ackCounts]
    cases cs with
    | nil => simp [ackCounts]
    | cons c2 cs2 =>
      rw [ackCounts, List.chain'_cons]
      have h2 : c2 ≠ [] := h c2 (by simp)
      have h2len : 0 < c2.length := List.length_pos.mpr h2
      refine ⟨by omega, ?_⟩
      rw [← ackCounts]
      exact ih (len0 + c.length) (fun d hd => h d (List.mem_cons_of_mem c hd))

/-- Helper: each acknowledgment count is at most the total of the initial
length and all delivered chunk lengths. -/
theorem ackCounts_le_total (chunks : List (List Nat)) (len0 : Nat) :
    ∀ a ∈ ackCounts len0 chunks, a ≤ len0 + chunks.flatten.length := by
  induction chunks generalizing len0 with
  | nil => simp [ackCounts]
  | cons c cs ih =>
    intro a ha
    rw [ackCounts, List.mem_cons] at ha
    rcases ha with rfl | ha
    · simp
    · have := ih (len0 + c.length) a ha
      simp at this ⊢
      omega

/-- Helper: every chunk of a slow delivery is nonempty. -/
theorem slowSteps_nonempty (np : Nat) :
    ∀ (t0 : Nat) (steps : List (List Nat × Nat)), slowSteps np t0 steps →
      ∀ c ∈ steps.map Prod.fst, c ≠ [] := by
  intro t0 steps
  induction steps generalizing t0 with
  | nil => intro _ c hc; simp at hc
  | cons st rest ih =>
    intro h c hc
    obtain ⟨hne, _, hrest⟩ := h
    rw [List.map_cons, List.mem_cons] at hc
    rcases hc with rfl | hc
    · exact hne
    · exact ih _ hrest c hc

/-- C6: while a single consumer read stays blocked (the delivered bytes
never reach the read target `lock_until`) and the producer appends
nonempty chunks more slowly than the notify interval, every `update` step
sends one acknowledgment whose count is the buffered length at the moment
of the send (`len(self.buffer)` after the append, server.py:451): the
counts across successive acknowledgments are exactly the successive
buffered lengths, hence strictly increasing, and none exceeds the bytes
actually buffered (each is at most the final buffered length). -/
theorem ack_counts_strictly_increasing (steps : List (List Nat × Nat))
    (s : GateState) (np t0 : Nat) (hw : s.waiting = true)
    (hln : s.last_notified = some t0) (hslow : slowSteps np t0 steps)
    (hlock : s.buffer.length + (steps.map Prod.fst).flatten.length
      < s.lock_until) :
    ∃ s2, runUpdates s np steps
        = .ok (s2, ackCounts s.buffer.length (steps.map Prod.fst))
      ∧ List.Chain' (· < ·) (ackCounts s.buffer.length (steps.map Prod.fst))
      ∧ ∀ a ∈ ackCounts s.buffer.length (steps.map Prod.fst),
          a ≤ s2.buffer.length := by
  obtain ⟨s2, hrun, hlen⟩ := runUpdates_slow steps s np t0 hw hln hslow hlock
  refine ⟨s2, hrun, ?_, ?_⟩
  · exact ackCounts_chain (steps.map Prod.fst) s.buffer.length
      (slowSteps_nonempty np t0 steps hslow)
  · intro a ha
    have := ackCounts_le_total (steps.map Prod.fst) s.buffer.length a ha
    omega

/-- C6 witness: two 2-byte chunks at times 10 and 20 (notify period 5,
last acknowledgment at time 0) against a blocked read of 100 bytes. -/
theorem ack_counts_strictly_increasing_witness :
    ∃ s2, runUpdates (GateState.mk [1] 100 true (some 0)) 5
          [([2, 3], 10), ([4, 5], 20)]
        = .ok (s2, ackCounts 1 [[2, 3], [4, 5]])
      ∧ List.Chain' (· < ·) (ackCounts 1 [[2, 3], [4, 5]])
      ∧ ∀ a ∈ ackCounts 1 [[2, 3], [4, 5]], a ≤ s2.buffer.length := by
  have h := ack_counts_strictly_increasing [([2, 3], 10), ([4, 5], 20)]
    (GateState.mk [1] 100 true (some 0)) 5 0 rfl rfl
    (by simp [slowSteps]) (by norm_num)
  simpa using h

/-- C4 (against the claim): for a request with the correct `version` but
no `method` key, `process_request` does return the documented triple
`("?", "ERROR", {"success": false, "boards": "Invalid Request, no method
specified"})` (server.py:223-227) — but `ClientConnection.run` then
evaluates `request_body["method"]` (server.py:494), which raises an
uncaught `KeyError` (only `socket.timeout` and `JSONDecodeError` are
caught, server.py:496), so the worker thread dies having performed no
action at all: no response is sent and no log line with method tag `"?"`
is written. -/
theorem no_method_request_dies_unlogged (srv : ServerState)
    (body : List (String × Json)) (sendOk : Bool)
    (hv : lookupJ body "version" = some (Json.str "1.0.0"))
    (hm : lookupJ body "method" = none) :
    Server.process_request srv body
        = .ok ("?", "ERROR",
            [("success", Json.bool false),
             ("boards", Json.str "Invalid Request, no method specified")])
      ∧ ClientConnection.run srv (RunEvent.ok body) sendOk
          = ([], some "KeyError") := by
  have hp : Server.process_request srv body
      = .ok ("?", "ERROR",
          [("success", Json.bool false),
           ("boards", Json.str "Invalid Request, no method specified")]) := by
    simp [Server.process_request, hv, hm, Json.eqStr, serverVersion]
  exact ⟨hp, by simp [ClientConnection.run, hp, hm]⟩

/-- C4 witness: the request `{"version": "1.0.0"}`. -/
theorem no_method_request_dies_unlogged_witness :
    Server.process_request srv0 [("version", Json.str "1.0.0")]
        = .ok ("?", "ERROR",
            [("success", Json.bool false),
             ("boards", Json.str "Invalid Request, no method specified")])
      ∧ ClientConnection.run srv0
          (RunEvent.ok [("version", Json.str "1.0.0")]) true
          = ([], some "KeyError") :=
  no_method_request_dies_unlogged srv0 [("version", Json.str "1.0.0")] true
    rfl rfl

/-- C5: in each of the three protocol-run endings the claim enumerates —
success (the request decoded, `process_request` returned, the method key
is a string, and the response send succeeded), a read timeout, or a decode
error — `ClientConnection.run` finishes with no uncaught exception and its
last action is `Server.unregister` (server.py:512), which removes the
socket from the selector and closes it (server.py:194-200); on the timeout
and decode-error endings no response bytes are sent (response is `None`,
server.py:497, 506) yet the socket is still closed. -/
theorem run_ends_by_unregistering (srv : ServerState) (ev : RunEvent)
    (sendOk : Bool)
    (h : ev = RunEvent.timeout ∨ ev = RunEvent.decodeError ∨
      ∃ body m rm stat resp, ev = RunEvent.ok body ∧ sendOk = true
        ∧ lookupJ body "method" = some (Json.str rm)
        ∧ Server.process_request srv body = .ok (m, stat, resp)) :
    ∃ acts, ClientConnection.run srv ev sendOk = (acts, none)
      ∧ acts.getLast? = some RunAction.unregister
      ∧ ((ev = RunEvent.timeout ∨ ev = RunEvent.decodeError) →
          ∀ a ∈ acts, ∀ resp, a ≠ RunAction.sendResponse resp) := by
  rcases h with rfl | rfl | ⟨body, m, rm, stat, resp, rfl, rfl, hm, hp⟩
  · refine ⟨[RunAction.logLine "?" "ERROR", RunAction.unregister], rfl, rfl, ?_⟩
    intro _ a ha resp
    simp at ha
    rcases ha with rfl | rfl <;> simp
  · refine ⟨[RunAction.logLine "?" "ERROR", RunAction.unregister], rfl, rfl, ?_⟩
    intro _ a ha resp
    simp at ha
    rcases ha with rfl | rfl <;> simp
  · refine ⟨[RunAction.logLine rm stat, RunAction.sendResponse resp,
      RunAction.unregister], ?_, rfl, ?_⟩
    · simp [ClientConnection.run, hp, hm]
    · intro hcontra
      rcases hcontra with hc | hc <;> exact absurd hc (by simp)

/-- C5 witness: a successful `GET_BOARDS` run. -/
theorem run_ends_by_unregistering_witness :
    ∃ acts, ClientConnection.run srv0
        (RunEvent.ok
          [("version", Json.str "1.0.0"), ("method", Json.str "GET_BOARDS")])
        true = (acts, none)
      ∧ acts.getLast? = some RunAction.unregister
      ∧ ((RunEvent.ok
            [("version", Json.str "1.0.0"), ("method", Json.str "GET_BOARDS")]
              = RunEvent.timeout ∨
          RunEvent.ok
            [("version", Json.str "1.0.0"), ("method", Json.str "GET_BOARDS")]
              = RunEvent.decodeError) →
          ∀ a ∈ acts, ∀ resp, a ≠ RunAction.sendResponse resp) :=
  run_ends_by_unregistering srv0
    (RunEvent.ok
      [("version", Json.str "1.0.0"), ("method", Json.str "GET_BOARDS")])
    true
    (Or.inr (Or.inr ⟨_, "GET_BOARDS", "GET_BOARDS", "OK",
      [("success", Json.bool true),
       ("boards", Json.arr [Json.str "general", Json.str "random"])],
      rfl, rfl, rfl, rfl⟩))

/-- C8 counterexample: the response to `{"version": "1.0.0"}` (no method)
reports failure (`success` is `false`) yet carries no `error` field at
all — its message sits in the string field `boards` (server.py:223-227),
refuting the claim that every failure response carries its message in a
field named `error`. -/
theorem failure_response_without_error_field :
    Server.process_request srv0 [("version", Json.str "1.0.0")]
        = .ok ("?", "ERROR",
            [("success", Json.bool false),
             ("boards", Json.str "Invalid Request, no method specified")])
      ∧ lookupJ
          [("success", Json.bool false),
           ("boards", Json.str "Invalid Request, no method specified")]
          "success" = some (Json.bool false)
      ∧ lookupJ
          [("success", Json.bool false),
           ("boards", Json.str "Invalid Request, no method specified")]
          "error" = none :=
  ⟨rfl, rfl, rfl⟩

/-- C8 as amended: every response triple `process_request` returns carries
a boolean `success` field, and every failure response carries its error
message in a string field — named `error` for the method-specific
failures, but named `boards` for the four version/method validation
failures (missing version, wrong version, missing method, unknown method;
server.py:212-227, 293-297). -/
theorem responses_carry_success_and_message (srv : ServerState)
    (body : List (String × Json)) (m stat : String)
    (resp : List (String × Json))
    (h : Server.process_request srv body = .ok (m, stat, resp)) :
    (∃ b, lookupJ resp "success" = some (Json.bool b))
      ∧ (lookupJ resp "success" = some (Json.bool false) →
          (∃ msg, lookupJ resp "error" = some (Json.str msg))
            ∨ ∃ msg, lookupJ resp "boards" = some (Json.str msg)) := by
  rw [Server.process_request] at h
  repeat' split at h
  all_goals first
    | exact Except.noConfusion h
    | (simp only [Except.ok.injEq, Prod.mk.injEq] at h
       obtain ⟨h1, h2, rfl⟩ := h
       refine ⟨⟨_, rfl⟩, fun hf => ?_⟩
       first
         | exact Or.inl ⟨_, rfl⟩
         | exact Or.inr ⟨_, rfl⟩
         | (exfalso
            simp [lookupJ] at hf))

/-- C8 witness for the amended theorem: the failure response to a request
with a wrong protocol version. -/
theorem responses_carry_success_and_message_witness :
    (∃ b, lookupJ
        [("success", Json.bool false),
         ("boards", Json.str
           "Incompatible protocol version, server uses 1.0.0")]
        "success" = some (Json.bool b))
      ∧ (lookupJ
          [("success", Json.bool false),
           ("boards", Json.str
             "Incompatible protocol version, server uses 1.0.0")]
          "success" = some (Json.bool false) →
          (∃ msg, lookupJ
              [("success", Json.bool false),
               ("boards", Json.str
                 "Incompatible protocol version, server uses 1.0.0")]
              "error" = some (Json.str msg))
            ∨ ∃ msg, lookupJ
                [("success", Json.bool false),
                 ("boards", Json.str
                   "Incompatible protocol version, server uses 1.0.0")]
                "boards" = some (Json.str msg)) :=
  responses_carry_success_and_message srv0
    [("version", Json.str "2.0.0")] "?" "ERROR" _ rfl
